import Mathlib

/-!
Shallow embedding of the `filterByValue` row-selection transform
(`packages/grafana-data/src/transformations/transformers/filterByValue.ts`)
together with the external collaborators it relies on (display-name
resolution, the value-filter predicate registry), which are modelled from the
specification where their implementation is not part of this excerpt.
-/

namespace Grafana

/-- Values stored in a field's value sequence.  JavaScript array reads out of
range yield `undefined`, which we model with the `undef` constructor. -/
inductive Value where
  | str : String → Value
  | num : Int → Value
  | undef : Value
deriving DecidableEq, Repr

/-- Field value-type tags (the fixed enumeration of the data model). -/
inductive FieldType where
  | number | string | time | boolean | other
deriving DecidableEq, Repr

/-- Display/formatting metadata of a field, opaque to the transform apart from
`displayName`, which feeds display-name resolution. -/
structure FieldConfig where
  displayName : Option String := none
  unit : Option String := none
deriving DecidableEq, Repr

/-- A named, typed column of values plus its configuration bag. -/
structure Field where
  name : String
  type : FieldType
  values : List Value
  config : FieldConfig := {}
deriving DecidableEq, Repr

/-- A frame: an ordered list of fields plus an explicit row count.  The
transformer builds output frames as `{ fields, length }`, so the embedding
keeps exactly those two components. -/
structure DataFrame where
  fields : List Field
  length : Nat
deriving DecidableEq, Repr

/-- One filter configuration (`ValueFilter` in the source). -/
structure ValueFilter where
  fieldName : Option String
  filterExpression : Option String
  filterExpression2 : Option String
  filterArgs : List (String × String)
  filterType : String
deriving DecidableEq, Repr

/-- Options of the transform (`FilterByValueTransformerOptions`).  The source
field `match` is a reserved word in Lean, so it is embedded as
`matchPolicy`. -/
structure FilterByValueTransformerOptions where
  valueFilters : List ValueFilter
  type : String
  matchPolicy : String
deriving DecidableEq, Repr

/-- Configuration handed to a predicate factory (`getInstance` argument). -/
structure FilterInstanceConfig where
  filterExpression : Option String
  filterExpression2 : Option String
  filterArgs : List (String × String)
  fieldType : FieldType

/-- A materialized predicate instance: a validity flag and a total test over a
single value. -/
structure FilterInstance where
  isValid : Bool
  test : Value → Bool

/-- A registry descriptor: the factory producing predicate instances. -/
structure FilterInfo where
  getInstance : FilterInstanceConfig → FilterInstance

/-- Modelled from the spec: display-name resolution for a field (the function
`getFieldDisplayName` lives outside this excerpt).  A field's resolved display
name is its configured `displayName` when present, otherwise its raw name. -/
def getFieldDisplayName (f : Field) : String :=
  f.config.displayName.getD f.name

/-- Modelled from the spec: the string-equality predicate kind (a concrete
registry entry; the registry implementations live outside this excerpt).
`getInstance` is pure and never fails: a missing or empty expression is
reported via `isValid = false`; the test is total over all values, comparing
the value against the expression as a string. -/
def equalGetInstance (cfg : FilterInstanceConfig) : FilterInstance :=
  match cfg.filterExpression with
  | none => { isValid := false, test := fun _ => false }
  | some e => { isValid := e != "", test := fun v => v == Value.str e }

/-- The descriptor of the string-equality predicate kind. -/
def equalFilterInfo : FilterInfo :=
  { getInstance := equalGetInstance }

/-- Modelled from the spec: `valueFiltersRegistry.get` (the registry lives
outside this excerpt).  It maps a predicate-kind identifier to its descriptor
and fails — returns `none`, which the transform turns into a fatal
configuration error — for a kind that was never registered. -/
def registryGet : String → Option FilterInfo
  | "equal" => some equalFilterInfo
  | _ => none

/-- The fatal error of the transform: a filter referenced an unregistered
predicate kind (registry lookup failure). -/
inductive ConfigError where
  | unknownFilterType : String → ConfigError
deriving DecidableEq, Repr

/-- A sparse JavaScript array of booleans: entries (holes and out-of-range
reads give `undefined`, modelled as `none`) together with the array's
`length`. -/
structure JsArray where
  val : Nat → Option Bool
  size : Nat

/-- The empty JavaScript array `[]`. -/
def JsArray.empty : JsArray :=
  { val := fun _ => none, size := 0 }

/-- Read `a[i]`: holes and out-of-range reads give `undefined`. -/
def jsGet (a : JsArray) (i : Nat) : Option Bool :=
  a.val i

/-- Write `a[i] = b`: in-range writes keep the length, writes past the end
grow the length to `i + 1` (intermediate entries stay holes). -/
def jsSet (a : JsArray) (i : Nat) (b : Bool) : JsArray :=
  { val := fun j => if j = i then some b else a.val j,
    size := max a.size (i + 1) }

/-- Read a field's value at a row index (`field.values.get(row)`); reads past
the end of the backing array give `undefined`. -/
def valAt (f : Field) (i : Nat) : Value :=
  f.values.getD i Value.undef

/-- Resolve the target field of a filter within a frame: the first field whose
resolved display name equals the filter's `fieldName` (a `null` field name
matches nothing). -/
def findField (frame : DataFrame) (fieldName : Option String) : Option Field :=
  frame.fields.find? (fun f => fieldName == some (getFieldDisplayName f))

/-- One row's update of the decision vector for one filter pass (the body of
the per-row loops at lines 89–104 of the source). -/
def decideRow (matchAll includeRow : Bool) (filterIndex : Nat)
    (tst : Value → Bool) (field : Field) (acc : JsArray)
    (row : Nat) : JsArray :=
  if matchAll then
    if !(tst (valAt field row)) then jsSet acc row (!includeRow)
    else if filterIndex = 0 then jsSet acc row includeRow
    else acc
  else
    if tst (valAt field row) then jsSet acc row includeRow
    else if filterIndex = 0 then jsSet acc row (!includeRow)
    else acc

/-- Run one filter's test over rows `0, …, n-1` of a frame, updating the
decision vector in ascending row order. -/
def runFilterRows (matchAll includeRow : Bool) (filterIndex : Nat)
    (tst : Value → Bool) (field : Field) :
    Nat → JsArray → JsArray
  | 0, acc => acc
  | n + 1, acc =>
      decideRow matchAll includeRow filterIndex tst field
        (runFilterRows matchAll includeRow filterIndex tst field n acc) n

/-- The per-frame filter loop (lines 59–106 of the source): for each filter in
declared order, resolve its field (skip when absent), look the kind up in the
registry (fatal when unregistered), build the predicate instance (skip when
invalid), and otherwise run its test over all rows of the frame. -/
def applyFiltersAux (matchAll includeRow : Bool) (frame : DataFrame) :
    List ValueFilter → Nat → JsArray →
    Except ConfigError JsArray
  | [], _, acc => .ok acc
  | vf :: rest, idx, acc =>
    match findField frame vf.fieldName with
    | none => applyFiltersAux matchAll includeRow frame rest (idx + 1) acc
    | some field =>
      match registryGet vf.filterType with
      | none => .error (ConfigError.unknownFilterType vf.filterType)
      | some info =>
        let inst := info.getInstance
          { filterExpression := vf.filterExpression,
            filterExpression2 := vf.filterExpression2,
            filterArgs := vf.filterArgs,
            fieldType := field.type }
        if inst.isValid then
          applyFiltersAux matchAll includeRow frame rest (idx + 1)
            (runFilterRows matchAll includeRow idx inst.test field
              frame.length acc)
        else
          applyFiltersAux matchAll includeRow frame rest (idx + 1) acc

/-- The row indices selected by the materialization loop: every index below
the decision vector's length whose entry is truthy. -/
def selectedRows (itr : JsArray) : List Nat :=
  (List.range itr.size).filter (fun r => (jsGet itr r).getD false)

/-- Materialize the filtered copy of a frame (lines 108–134 of the source):
fields mirror the originals' name, type and configuration with fresh value
sequences holding the selected rows' values in ascending row order; the output
length is the number of selected rows. -/
def materialize (frame : DataFrame) (itr : JsArray) : DataFrame :=
  let rows := selectedRows itr
  { fields := frame.fields.map (fun f => { f with values := rows.map (valAt f) }),
    length := rows.length }

/-- The frame loop (lines 58–135 of the source).  The decision vector `itr` is
threaded through all frames — in the source `includeThisRow` is declared
outside the frame loop — and the final vector is returned alongside the
processed frames. -/
def processFrames (matchAll includeRow : Bool) (filters : List ValueFilter) :
    List DataFrame → JsArray →
    Except ConfigError (List DataFrame × JsArray)
  | [], itr => .ok ([], itr)
  | frame :: rest, itr =>
    match applyFiltersAux matchAll includeRow frame filters 0 itr with
    | .error e => .error e
    | .ok itr2 =>
      match processFrames matchAll includeRow filters rest itr2 with
      | .error e => .error e
      | .ok (ps, itrFinal) => .ok (materialize frame itr2 :: ps, itrFinal)

/-- The data function returned by the transformer's outer closure (lines
49–142 of the source): returns the input unchanged for an empty filter list or
when no decision was ever written, and otherwise returns the processed
frames. -/
def transformData (matchAll includeRow : Bool) (valueFilters : List ValueFilter)
    (data : List DataFrame) : Except ConfigError (List DataFrame) :=
  if valueFilters.length = 0 then .ok data
  else
    match processFrames matchAll includeRow valueFilters data JsArray.empty with
    | .error e => .error e
    | .ok (processed, itr) =>
      if itr.size > 0 then .ok processed else .ok data

/-- The transform itself (`filterByValueTransformer.transformer`): computes
the include sense and the match policy from the options, then runs the data
function. -/
def filterByValueTransform (opts : FilterByValueTransformerOptions)
    (data : List DataFrame) : Except ConfigError (List DataFrame) :=
  transformData (opts.matchPolicy == "all") (opts.type == "include")
    opts.valueFilters data


/-! ### Basic lemmas about the decision vector -/

theorem jsGet_jsSet_self (a : JsArray) (i : Nat) (b : Bool) :
    jsGet (jsSet a i b) i = some b := by
  simp [jsGet, jsSet]

theorem jsGet_jsSet_of_ne (a : JsArray) (i j : Nat) (b : Bool) (h : i ≠ j) :
    jsGet (jsSet a j b) i = jsGet a i := by
  simp [jsGet, jsSet, h]

theorem jsGet_decideRow_of_ne (mA iR : Bool) (idx : Nat) (tst : Value → Bool)
    (field : Field) (acc : JsArray) (row r : Nat) (h : r ≠ row) :
    jsGet (decideRow mA iR idx tst field acc row) r = jsGet acc r := by
  simp only [decideRow]
  split_ifs <;> simp [jsGet_jsSet_of_ne _ _ _ _ h]

/-- Full characterization of one filter pass over the rows of a frame: entry
`r` of the decision vector after the pass, in terms of the entry before it. -/
theorem jsGet_runFilterRows (mA iR : Bool) (idx : Nat) (tst : Value → Bool)
    (field : Field) (n : Nat) (acc : JsArray) (r : Nat) :
    jsGet (runFilterRows mA iR idx tst field n acc) r =
      if r < n then
        (if mA then
          (if tst (valAt field r) then
            (if idx = 0 then some iR else jsGet acc r)
           else some (!iR))
         else
          (if tst (valAt field r) then some iR
           else if idx = 0 then some (!iR) else jsGet acc r))
      else jsGet acc r := by
  induction n with
  | zero => simp [runFilterRows]
  | succ n ih =>
    by_cases hrn : r = n
    · subst hrn
      have hr : jsGet (runFilterRows mA iR idx tst field r acc) r = jsGet acc r := by
        simp [ih]
      simp only [runFilterRows, decideRow]
      split_ifs with h1 h2 h3 h2 h3 <;>
        simp_all [jsGet_jsSet_self, Nat.lt_succ_self]
    · rw [runFilterRows, jsGet_decideRow_of_ne _ _ _ _ _ _ _ _ hrn, ih]
      rcases Nat.lt_or_ge r n with hlt | hge
      · simp [hlt, Nat.lt_succ_of_lt hlt]
      · have h1 : ¬ r < n := Nat.not_lt.mpr hge
        have h2 : ¬ r < n + 1 := by omega
        simp [h1, h2]

/-! ### Concrete inputs used by the scenarios -/

/-- A string-typed field with the given name and values. -/
def mkStringField (nm : String) (vs : List String) : Field :=
  { name := nm, type := FieldType.string, values := vs.map Value.str }

/-- A string-equality filter configuration on the given field name. -/
def equalFilter (fn e : String) : ValueFilter :=
  { fieldName := some fn, filterExpression := some e, filterExpression2 := none,
    filterArgs := [], filterType := "equal" }

/-- The frame of scenarios A and B: `status` = ["ok","fail","ok","fail"]. -/
def statusFrame : DataFrame :=
  { fields := [mkStringField "status" ["ok", "fail", "ok", "fail"]],
    length := 4 }

/-- A two-row variant of the status frame. -/
def statusFrame2 : DataFrame :=
  { fields := [mkStringField "status" ["ok", "fail"]], length := 2 }

/-- A one-row frame that has no `status` field at all. -/
def frameOther : DataFrame :=
  { fields := [mkStringField "other" ["x"]], length := 1 }

/-- Options of scenario A: include rows whose `status` equals "ok",
matching all filters. -/
def includeOkOpts : FilterByValueTransformerOptions :=
  { valueFilters := [equalFilter "status" "ok"], type := "include",
    matchPolicy := "all" }

/-- A two-row frame whose field `s` is "a" on both rows. -/
def longFrame : DataFrame :=
  { fields := [mkStringField "s" ["a", "a"]], length := 2 }

/-- A one-row frame whose field `s` is "a". -/
def shortFrame : DataFrame :=
  { fields := [mkStringField "s" ["a"]], length := 1 }

/-- Options filtering on `s = "a"`, include sense, match all. -/
def sOpts : FilterByValueTransformerOptions :=
  { valueFilters := [equalFilter "s" "a"], type := "include",
    matchPolicy := "all" }

/-- The frame of scenario C: two fields `a` and `b`; row 0 satisfies only the
filter on `b`, row 1 satisfies neither. -/
def frameC7 : DataFrame :=
  { fields := [mkStringField "a" ["v0", "zz"], mkStringField "b" ["w2", "zz"]],
    length := 2 }

/-! ### Scenario theorems -/

/-- C6: for the frame with `status` = ["ok","fail","ok","fail"] and the single
equality filter on "ok" under match=all, the include sense returns the two
"ok" rows and the exclude sense returns the two "fail" rows. -/
theorem scenarioAB_include_and_exclude :
    filterByValueTransform includeOkOpts [statusFrame] =
      .ok [{ fields := [mkStringField "status" ["ok", "ok"]], length := 2 }] ∧
    filterByValueTransform { includeOkOpts with type := "exclude" } [statusFrame] =
      .ok [{ fields := [mkStringField "status" ["fail", "fail"]], length := 2 }] :=
  ⟨rfl, rfl⟩

/-- C1: refutation by evaluation.  A frame containing no field of the filter
is NOT left unaffected: because the decision vector is shared across frames
(declared outside the frame loop) and never repopulated for a frame in which
the filter resolves no field, the one-row frame `frameOther` comes back with
zero rows once another frame was filtered, instead of keeping its row. -/
theorem frame_without_field_loses_its_rows :
    filterByValueTransform includeOkOpts [frameOther, statusFrame] =
      .ok [{ fields := [mkStringField "other" []], length := 0 },
           { fields := [mkStringField "status" ["ok", "ok"]], length := 2 }] ∧
    frameOther.length = 1 :=
  ⟨rfl, rfl⟩

/-- C8: refutation by evaluation.  With a two-row frame followed by a one-row
frame, the stale decisions of the first frame make the materialization loop
run past the second frame's length: the second output frame has two rows, the
extra one holding the `undefined` read out of range — not a subsequence of the
one-row input. -/
theorem shorter_frame_output_exceeds_input :
    filterByValueTransform sOpts [longFrame, shortFrame] =
      .ok [{ fields := [mkStringField "s" ["a", "a"]], length := 2 },
           { fields := [{ name := "s", type := FieldType.string,
                          values := [Value.str "a", Value.undef] }],
             length := 2 }] ∧
    shortFrame.length = 1 :=
  ⟨rfl, rfl⟩

/-- The first application's output on the C10 failing input. -/
def firstOutput : List DataFrame :=
  [{ fields := [mkStringField "s" ["a", "a"]], length := 2 },
   { fields := [{ name := "s", type := FieldType.string,
                  values := [Value.str "a", Value.undef] }], length := 2 }]

/-- The second application's output on the C10 failing input. -/
def secondOutput : List DataFrame :=
  [{ fields := [mkStringField "s" ["a", "a"]], length := 2 },
   { fields := [mkStringField "s" ["a"]], length := 1 }]

/-- C10: refutation by evaluation.  Under match=all, type=include, re-applying
the transform to its own output is not the identity: the first application
emits an out-of-range `undefined` row for the shorter frame, which fails the
filter on re-application, so the second output differs from the first. -/
theorem reapplication_changes_output :
    filterByValueTransform sOpts [longFrame, shortFrame] = .ok firstOutput ∧
    filterByValueTransform sOpts firstOutput = .ok secondOutput ∧
    secondOutput ≠ firstOutput :=
  ⟨rfl, rfl, by decide⟩

/-- The instance configuration built for the "status"-equals-"ok" filter on a
string field. -/
def okInstanceCfg : FilterInstanceConfig :=
  { filterExpression := some "ok", filterExpression2 := none,
    filterArgs := [], fieldType := FieldType.string }

/-- C2 counterexample: the seeding filter is the literal first list entry, not
the first applicable one.  Filter 0 targets a field absent from the frame
(skipped), filter 1 is applicable and matches row 0; under first-applicable
semantics row 0 would be seeded to include and survive, but the code seeds
only at filter index 0, so the output frame is empty. -/
theorem first_applicable_filter_does_not_seed :
    findField statusFrame2 (some "missing") = none ∧
    (findField statusFrame2 (some "status")).isSome = true ∧
    (equalGetInstance okInstanceCfg).isValid = true ∧
    (equalGetInstance okInstanceCfg).test
        (valAt (mkStringField "status" ["ok", "fail"]) 0) = true ∧
    filterByValueTransform
        { valueFilters := [equalFilter "missing" "x", equalFilter "status" "ok"],
          type := "include", matchPolicy := "all" }
        [statusFrame2] =
      .ok [{ fields := [mkStringField "status" []], length := 0 }] :=
  ⟨rfl, rfl, rfl, rfl, rfl⟩

/-- C3 counterexample: with `type` left as the empty string (unset), the
transform behaves as exclude, not as the documented default include: it keeps
the "fail" rows, while `type := "include"` keeps the "ok" rows. -/
theorem unset_type_behaves_as_exclude :
    filterByValueTransform { includeOkOpts with type := "" } [statusFrame] =
      .ok [{ fields := [mkStringField "status" ["fail", "fail"]], length := 2 }] ∧
    filterByValueTransform includeOkOpts [statusFrame] =
      .ok [{ fields := [mkStringField "status" ["ok", "ok"]], length := 2 }] ∧
    ({ fields := [mkStringField "status" ["fail", "fail"]], length := 2 } : DataFrame) ≠
      { fields := [mkStringField "status" ["ok", "ok"]], length := 2 } :=
  ⟨rfl, rfl, by decide⟩

/-- C2 (amended): the row-decision default is seeded only by the literal
first filter of the valueFilters list (filter index 0), not by the first
applicable filter for the frame.  For a filter pass at index `idx` over a row
`r` of the frame whose test result equals the match-all flag (matched under
match=all, non-matched under match=any — exactly the seeding situations), the
row's decision becomes the seed value (`includeRow` under match=all,
`!includeRow` under match=any) when `idx = 0`, and is left unchanged — in
particular stays undetermined — when `idx ≠ 0`. -/
theorem seeding_uses_literal_first_index (mA iR : Bool) (idx : Nat)
    (tst : Value → Bool) (field : Field) (n : Nat) (acc : JsArray) (r : Nat)
    (hr : r < n) (hmatch : tst (valAt field r) = mA) :
    jsGet (runFilterRows mA iR idx tst field n acc) r =
      if idx = 0 then some (if mA then iR else !iR) else jsGet acc r := by
  cases mA <;> simp [jsGet_runFilterRows, hr, hmatch]

/-- Witness for `seeding_uses_literal_first_index` at a concrete input: a
matching row under match=all stays undetermined at filter index 1. -/
theorem seeding_uses_literal_first_index_witness :
    jsGet (runFilterRows true true 1 (fun _ => true)
      (mkStringField "s" ["a"]) 1 JsArray.empty) 0 = none := by
  rw [seeding_uses_literal_first_index true true 1 (fun _ => true)
    (mkStringField "s" ["a"]) 1 JsArray.empty 0 (by decide) rfl]
  rfl

/-- C3 (amended): the two default clauses hold independently — whatever the
other option is, a `type` other than the exact string "include" makes the
transform behave as "exclude", and a `match` other than the exact string
"all" makes it behave as "any" — not the documented defaults include/all. -/
theorem unrecognized_options_behave_as_exclude_any
    (opts : FilterByValueTransformerOptions) (data : List DataFrame) :
    (opts.type ≠ "include" →
      filterByValueTransform opts data =
        filterByValueTransform { opts with type := "exclude" } data) ∧
    (opts.matchPolicy ≠ "all" →
      filterByValueTransform opts data =
        filterByValueTransform { opts with matchPolicy := "any" } data) := by
  constructor
  · intro h1
    have e1 : (opts.type == "include") = false := by
      simpa using h1
    simp [filterByValueTransform, e1]
  · intro h2
    have e2 : (opts.matchPolicy == "all") = false := by
      simpa using h2
    simp [filterByValueTransform, e2]

/-- Witness for `unrecognized_options_behave_as_exclude_any`, exercising both
clauses independently on a concrete frame: an empty `type` with `match="all"`
gives the same result as exclude, and an empty `match` with `type="include"`
gives the same result as any. -/
theorem unrecognized_options_behave_as_exclude_any_witness :
    filterByValueTransform
        { valueFilters := [equalFilter "status" "ok"], type := "",
          matchPolicy := "all" } [statusFrame] =
      filterByValueTransform
        { valueFilters := [equalFilter "status" "ok"], type := "exclude",
          matchPolicy := "all" } [statusFrame] ∧
    filterByValueTransform
        { valueFilters := [equalFilter "status" "ok"], type := "include",
          matchPolicy := "" } [statusFrame] =
      filterByValueTransform
        { valueFilters := [equalFilter "status" "ok"], type := "include",
          matchPolicy := "any" } [statusFrame] :=
  ⟨(unrecognized_options_behave_as_exclude_any
      { valueFilters := [equalFilter "status" "ok"], type := "",
        matchPolicy := "all" } [statusFrame]).1 (by decide),
   (unrecognized_options_behave_as_exclude_any
      { valueFilters := [equalFilter "status" "ok"], type := "include",
        matchPolicy := "" } [statusFrame]).2 (by decide)⟩

/-- C7: under match=any a non-match on a later filter never downgrades an
already-positive decision — a row whose decision is already `includeRow`
keeps it through any further filter pass at index `idx ≠ 0` regardless of its
test result — and, concretely, with two include/any equality filters on the
two fields of `frameC7`, row 0, which satisfies only the second filter, is in
the output. -/
theorem match_any_never_downgrades (iR : Bool) (idx : Nat)
    (tst : Value → Bool) (field : Field) (n : Nat) (acc : JsArray) (r : Nat)
    (hidx : idx ≠ 0) (hpos : jsGet acc r = some iR) :
    jsGet (runFilterRows false iR idx tst field n acc) r = some iR ∧
    filterByValueTransform
        { valueFilters := [equalFilter "a" "v1", equalFilter "b" "w2"],
          type := "include", matchPolicy := "any" } [frameC7] =
      .ok [{ fields := [mkStringField "a" ["v0"], mkStringField "b" ["w2"]],
             length := 1 }] := by
  refine ⟨?_, rfl⟩
  by_cases hrn : r < n <;> by_cases ht : tst (valAt field r) <;>
    simp [jsGet_runFilterRows, hrn, ht, hidx, hpos]

/-- Witness for `match_any_never_downgrades` at a concrete input: a positive
row stays positive through a failing pass at filter index 1. -/
theorem match_any_never_downgrades_witness :
    jsGet (runFilterRows false true 1 (fun _ => false)
      (mkStringField "s" ["a"]) 1 (jsSet JsArray.empty 0 true)) 0 = some true :=
  (match_any_never_downgrades true 1 (fun _ => false) (mkStringField "s" ["a"])
    1 (jsSet JsArray.empty 0 true) 0 (by decide) rfl).1

/-! ### Identity fallback (C4) -/

/-- A filter that contributes nothing for a given frame: either its field
name resolves to no field of the frame, or the field resolves, the kind is
registered, and the materialized predicate instance is invalid. -/
def filterInert (frame : DataFrame) (vf : ValueFilter) : Bool :=
  match findField frame vf.fieldName with
  | none => true
  | some field =>
    match registryGet vf.filterType with
    | none => false
    | some info =>
      !(info.getInstance
        { filterExpression := vf.filterExpression,
          filterExpression2 := vf.filterExpression2,
          filterArgs := vf.filterArgs,
          fieldType := field.type }).isValid

theorem applyFiltersAux_of_inert (mA iR : Bool) (frame : DataFrame)
    (filters : List ValueFilter) (idx : Nat) (acc : JsArray)
    (h : ∀ vf ∈ filters, filterInert frame vf = true) :
    applyFiltersAux mA iR frame filters idx acc = .ok acc := by
  induction filters generalizing idx with
  | nil => rfl
  | cons vf rest ih =>
    have hvf := h vf (List.mem_cons_self _ _)
    have hrest : ∀ v ∈ rest, filterInert frame v = true :=
      fun v hv => h v (List.mem_cons_of_mem _ hv)
    simp only [applyFiltersAux]
    cases hf : findField frame vf.fieldName with
    | none => exact ih (idx + 1) hrest
    | some field =>
      cases hr : registryGet vf.filterType with
      | none => simp [filterInert, hf, hr] at hvf
      | some info =>
        have hv : (info.getInstance
            { filterExpression := vf.filterExpression,
              filterExpression2 := vf.filterExpression2,
              filterArgs := vf.filterArgs,
              fieldType := field.type }).isValid = false := by
          simpa [filterInert, hf, hr] using hvf
        simp only [hv]
        exact ih (idx + 1) hrest

theorem processFrames_of_inert (mA iR : Bool) (filters : List ValueFilter)
    (frames : List DataFrame) (itr : JsArray)
    (h : ∀ frame ∈ frames, ∀ vf ∈ filters, filterInert frame vf = true) :
    ∃ ps, processFrames mA iR filters frames itr = .ok (ps, itr) := by
  induction frames generalizing itr with
  | nil => exact ⟨[], rfl⟩
  | cons frame rest ih =>
    have hframe := h frame (List.mem_cons_self _ _)
    have hrest : ∀ f ∈ rest, ∀ vf ∈ filters, filterInert f vf = true :=
      fun f hf => h f (List.mem_cons_of_mem _ hf)
    obtain ⟨ps, hps⟩ := ih itr hrest
    refine ⟨materialize frame itr :: ps, ?_⟩
    simp only [processFrames, applyFiltersAux_of_inert mA iR frame filters 0 itr hframe,
      hps]

/-- C4: the transform returns the original frames untouched whenever the
filter list is empty, or every filter is inert for every frame (no filter
ever resolves a field and yields a valid predicate instance) — in particular
for a single filter whose sole instance is invalid.  No decision is ever
written, so the identity fallback triggers. -/
theorem identity_when_no_effective_filter
    (opts : FilterByValueTransformerOptions) (data : List DataFrame)
    (h : opts.valueFilters = [] ∨
      ∀ frame ∈ data, ∀ vf ∈ opts.valueFilters, filterInert frame vf = true) :
    filterByValueTransform opts data = .ok data := by
  rcases h with h | h
  · simp [filterByValueTransform, transformData, h]
  · by_cases he : opts.valueFilters.length = 0
    · simp [filterByValueTransform, transformData, he]
    · obtain ⟨ps, hps⟩ :=
        processFrames_of_inert (opts.matchPolicy == "all")
          (opts.type == "include") opts.valueFilters data JsArray.empty h
      simp only [filterByValueTransform, transformData, if_neg he, hps]
      simp [JsArray.empty]

/-- Witness for `identity_when_no_effective_filter`: a single equality filter
whose expression is empty (invalid instance) leaves a concrete frame set
unchanged. -/
theorem identity_when_no_effective_filter_witness :
    filterByValueTransform
        { valueFilters := [equalFilter "status" ""], type := "include",
          matchPolicy := "all" } [statusFrame, frameOther] =
      .ok [statusFrame, frameOther] :=
  identity_when_no_effective_filter
    { valueFilters := [equalFilter "status" ""], type := "include",
      matchPolicy := "all" } [statusFrame, frameOther]
    (Or.inr (by decide))

/-! ### Error propagation (C5) -/

theorem applyFiltersAux_error_iff (mA iR : Bool) (frame : DataFrame)
    (filters : List ValueFilter) (idx : Nat) (acc : JsArray) :
    (∃ e, applyFiltersAux mA iR frame filters idx acc = .error e) ↔
      ∃ vf ∈ filters, (findField frame vf.fieldName).isSome = true ∧
        registryGet vf.filterType = none := by
  induction filters generalizing idx acc with
  | nil => simp [applyFiltersAux]
  | cons vf rest ih =>
    simp only [applyFiltersAux]
    cases hf : findField frame vf.fieldName with
    | none =>
      simp [ih, List.exists_mem_cons_iff, hf]
    | some field =>
      cases hr : registryGet vf.filterType with
      | none =>
        simp [List.exists_mem_cons_iff, hf, hr]
      | some info =>
        by_cases hv : (info.getInstance
            { filterExpression := vf.filterExpression,
              filterExpression2 := vf.filterExpression2,
              filterArgs := vf.filterArgs,
              fieldType := field.type }).isValid = true <;>
          simp [hv, ih, List.exists_mem_cons_iff, hr]

theorem processFrames_error_iff (mA iR : Bool) (filters : List ValueFilter)
    (frames : List DataFrame) (itr : JsArray) :
    (∃ e, processFrames mA iR filters frames itr = .error e) ↔
      ∃ frame ∈ frames, ∃ vf ∈ filters,
        (findField frame vf.fieldName).isSome = true ∧
        registryGet vf.filterType = none := by
  induction frames generalizing itr with
  | nil => simp [processFrames]
  | cons frame rest ih =>
    simp only [processFrames]
    cases ha : applyFiltersAux mA iR frame filters 0 itr with
    | error e =>
      have hframe := (applyFiltersAux_error_iff mA iR frame filters 0 itr).mp ⟨e, ha⟩
      simp [List.exists_mem_cons_iff, hframe]
    | ok itr2 =>
      have hframe : ¬ ∃ vf ∈ filters, (findField frame vf.fieldName).isSome = true ∧
          registryGet vf.filterType = none := by
        intro hx
        obtain ⟨e, he⟩ := (applyFiltersAux_error_iff mA iR frame filters 0 itr).mpr hx
        rw [ha] at he
        cases he
      cases hp : processFrames mA iR filters rest itr2 with
      | error e =>
        have hrest := (ih itr2).mp ⟨e, hp⟩
        simp [List.exists_mem_cons_iff, hrest, hp]
      | ok pr =>
        have hrest : ¬ ∃ f ∈ rest, ∃ vf ∈ filters,
            (findField f vf.fieldName).isSome = true ∧
            registryGet vf.filterType = none := by
          intro hx
          obtain ⟨e, he⟩ := (ih itr2).mpr hx
          rw [hp] at he
          cases he
        obtain ⟨ps, itrF⟩ := pr
        simp [List.exists_mem_cons_iff, hframe, hrest, hp]

/-- C5: the transform fails — returns a configuration error instead of a
result — exactly when some frame of the input contains a field resolved by a
filter whose kind is not registered; registry-lookup failure is the only
error that propagates out. -/
theorem apply_fails_iff_unknown_kind_resolves
    (opts : FilterByValueTransformerOptions) (data : List DataFrame) :
    (∃ e, filterByValueTransform opts data = .error e) ↔
      ∃ frame ∈ data, ∃ vf ∈ opts.valueFilters,
        (findField frame vf.fieldName).isSome = true ∧
        registryGet vf.filterType = none := by
  unfold filterByValueTransform transformData
  by_cases he : opts.valueFilters.length = 0
  · have hempty : opts.valueFilters = [] := List.length_eq_zero.mp he
    simp [he, hempty]
  · simp only [if_neg he]
    cases hp : processFrames (opts.matchPolicy == "all") (opts.type == "include")
        opts.valueFilters data JsArray.empty with
    | error e =>
      have hx := (processFrames_error_iff _ _ _ _ _).mp ⟨e, hp⟩
      simp [hx]
    | ok pr =>
      have hx : ¬ ∃ frame ∈ data, ∃ vf ∈ opts.valueFilters,
          (findField frame vf.fieldName).isSome = true ∧
          registryGet vf.filterType = none := by
        intro hy
        obtain ⟨e, hee⟩ := (processFrames_error_iff (opts.matchPolicy == "all")
          (opts.type == "include") opts.valueFilters data JsArray.empty).mpr hy
        rw [hp] at hee
        cases hee
      obtain ⟨ps, itr⟩ := pr
      simp only [hx, iff_false]
      intro ⟨e, hee⟩
      by_cases hs : itr.size > 0 <;> simp [hs] at hee

/-! ### Field-shape preservation (C9) -/

/-- The default frame used to state positional properties via `List.getD`. -/
def defaultFrame : DataFrame :=
  { fields := [], length := 0 }

/-- The output frame mirrors the input frame's shape: same field count, and
fieldwise the same names, type tags and display configurations; every output
field's value sequence has exactly the output frame's length elements. -/
def shapeMatch (inp out : DataFrame) : Prop :=
  out.fields.length = inp.fields.length ∧
  out.fields.map Field.name = inp.fields.map Field.name ∧
  out.fields.map Field.type = inp.fields.map Field.type ∧
  out.fields.map Field.config = inp.fields.map Field.config ∧
  ∀ f ∈ out.fields, f.values.length = out.length

theorem shapeMatch_materialize (frame : DataFrame) (itr : JsArray) :
    shapeMatch frame (materialize frame itr) := by
  refine ⟨?_, ?_, ?_, ?_, ?_⟩
  · simp [materialize]
  · simp [materialize, Function.comp]
  · simp [materialize, Function.comp]
  · simp [materialize, Function.comp]
  · intro f hf
    simp only [materialize, List.mem_map] at hf
    obtain ⟨a, _, rfl⟩ := hf
    simp [materialize]

theorem shapeMatch_refl (frame : DataFrame)
    (hwf : ∀ f ∈ frame.fields, f.values.length = frame.length) :
    shapeMatch frame frame :=
  ⟨rfl, rfl, rfl, rfl, hwf⟩

theorem processFrames_shape (mA iR : Bool) (filters : List ValueFilter)
    (frames : List DataFrame) (itr : JsArray) (ps : List DataFrame)
    (itrF : JsArray)
    (h : processFrames mA iR filters frames itr = .ok (ps, itrF)) :
    ps.length = frames.length ∧ ∀ i, i < frames.length →
      shapeMatch (frames.getD i defaultFrame) (ps.getD i defaultFrame) := by
  induction frames generalizing itr ps itrF with
  | nil =>
    simp only [processFrames, Except.ok.injEq, Prod.mk.injEq] at h
    obtain ⟨h1, h2⟩ := h
    subst h1
    simp
  | cons frame rest ih =>
    simp only [processFrames] at h
    cases ha : applyFiltersAux mA iR frame filters 0 itr with
    | error e => simp [ha] at h
    | ok itr2 =>
      cases hp : processFrames mA iR filters rest itr2 with
      | error e => simp [ha, hp] at h
      | ok pr =>
        obtain ⟨ps2, itrF2⟩ := pr
        simp only [ha, hp, Except.ok.injEq, Prod.mk.injEq] at h
        obtain ⟨hps, hitr⟩ := h
        subst hps
        obtain ⟨hlen, hshape⟩ := ih itr2 ps2 itrF2 hp
        constructor
        · simp [hlen]
        · intro i hi
          cases i with
          | zero => simpa using shapeMatch_materialize frame itr2
          | succ n =>
            simpa using hshape n (by simpa using Nat.lt_of_succ_lt_succ hi)

theorem shapeMatch_self_pointwise (data : List DataFrame)
    (hwf : ∀ frame ∈ data, ∀ f ∈ frame.fields, f.values.length = frame.length)
    (i : Nat) (hi : i < data.length) :
    shapeMatch (data.getD i defaultFrame) (data.getD i defaultFrame) := by
  have hmem : data.getD i defaultFrame ∈ data := by
    rw [List.getD_eq_getElem?_getD, List.getElem?_eq_getElem hi]
    exact List.getElem_mem hi
  exact shapeMatch_refl _ (hwf _ hmem)

/-- C9: whenever the transform returns a result, it has one output frame per
input frame, and each output frame mirrors its input frame's field shape —
same field count, names, type tags and display configurations — with every
output field's value sequence exactly as long as the output frame.  (The
well-formedness hypothesis on the input is only needed for the identity
fallback, where the input frames themselves are returned.) -/
theorem output_frames_preserve_field_shape
    (opts : FilterByValueTransformerOptions) (data processed : List DataFrame)
    (hwf : ∀ frame ∈ data, ∀ f ∈ frame.fields, f.values.length = frame.length)
    (h : filterByValueTransform opts data = .ok processed) :
    processed.length = data.length ∧ ∀ i, i < data.length →
      shapeMatch (data.getD i defaultFrame) (processed.getD i defaultFrame) := by
  unfold filterByValueTransform transformData at h
  by_cases he : opts.valueFilters.length = 0
  · rw [if_pos he] at h
    obtain rfl : data = processed := by cases h; rfl
    exact ⟨rfl, fun i hi => shapeMatch_self_pointwise data hwf i hi⟩
  · rw [if_neg he] at h
    cases hp : processFrames (opts.matchPolicy == "all") (opts.type == "include")
        opts.valueFilters data JsArray.empty with
    | error e => simp [hp] at h
    | ok pr =>
      obtain ⟨ps, itr⟩ := pr
      simp only [hp] at h
      by_cases hs : itr.size > 0
      · rw [if_pos hs] at h
        obtain rfl : ps = processed := by cases h; rfl
        exact processFrames_shape _ _ _ data JsArray.empty ps itr hp
      · rw [if_neg hs] at h
        obtain rfl : data = processed := by cases h; rfl
        exact ⟨rfl, fun i hi => shapeMatch_self_pointwise data hwf i hi⟩

/-- Witness for `output_frames_preserve_field_shape` on a concrete run of
scenario A. -/
theorem output_frames_preserve_field_shape_witness :
    ([{ fields := [mkStringField "status" ["ok", "ok"]], length := 2 }] :
        List DataFrame).length = [statusFrame].length ∧
    ∀ i, i < [statusFrame].length →
      shapeMatch ([statusFrame].getD i defaultFrame)
        (([{ fields := [mkStringField "status" ["ok", "ok"]], length := 2 }] :
          List DataFrame).getD i defaultFrame) :=
  output_frames_preserve_field_shape includeOkOpts [statusFrame]
    [{ fields := [mkStringField "status" ["ok", "ok"]], length := 2 }]
    (by decide) rfl

end Grafana
